import Mathlib

/-!
Verification of the ThermoSense advisory engine.

This file gives a shallow embedding of the pure logic of the repository:

* `generateRecommendations` (src/app.js, `useMLModel`): the health advisory
  engine mapping battery / weather / device-temperature / performance
  snapshots to a health score, an alert level and a recommendation list.
  JavaScript numbers are modelled by `ℚ` (the engine only compares against
  integer thresholds and subtracts integer penalties, all exact in floats);
  absent snapshots (`null`/`undefined`) by `Option`; the sequential mutation
  of `recommendations` / `healthScore` / `alertLevel` by sequential
  application of one rule function per source block to an `EngineState`.
* `handleCustomAnalysis` (src/app.js, `AIAdvisory`): the custom scenario
  analyzer, embedded as the pure core of the submit handler (the parsed
  form fields are its parameters, the produced `customResult` its value).
* `sendSensorData` (src/app.updated.js): the remote-endpoint client; the
  axios POST is abstracted as an explicit `transport` argument returning
  `Except TransportError AdviceResponse`, the JS try/catch becomes a match
  on that result.  DOM updates are side effects outside the embedding.
-/

/-- Alert severity produced by the advisory engine: one of the JS strings
`safe`, `warning`, `danger`. -/
inductive AlertLevel
  | safe
  | warning
  | danger
deriving DecidableEq

/-- Ordinal severity used to state the escalation ordering
safe < warning < danger. -/
def severity : AlertLevel → Nat
  | AlertLevel.safe => 0
  | AlertLevel.warning => 1
  | AlertLevel.danger => 2

/-- The fields of the battery snapshot read by the engine
(`batteryData.level`, `batteryData.charging`). -/
structure BatterySnapshot where
  level : ℚ
  charging : Bool
deriving DecidableEq

/-- The field of the weather snapshot read by the engine
(`weatherData.temperature`). -/
structure WeatherSnapshot where
  temperature : ℚ
deriving DecidableEq

/-- The field of the performance snapshot read by the engine
(`performanceData.cpuLoad`); `none` models an object with no `cpuLoad`
field (the initial `{}` state), for which `cpuLoad > 80` is false in JS. -/
structure PerformanceSnapshot where
  cpuLoad : Option ℚ
deriving DecidableEq

/-- JS test `performanceData.cpuLoad > 80`: false when the field is absent. -/
def cpuLoadHigh (p : PerformanceSnapshot) : Bool :=
  match p.cpuLoad with
  | none => false
  | some c => decide (c > 80)

/-- The three local variables mutated across the rule blocks of
`generateRecommendations`. -/
structure EngineState where
  recommendations : List String
  healthScore : ℚ
  alertLevel : AlertLevel
deriving DecidableEq

/-- Temperature analysis block of `generateRecommendations`
(src/app.js lines 220-231). -/
def temperatureRule (deviceTemp : ℚ) (st : EngineState) : EngineState :=
  if deviceTemp > 40 then
    { recommendations := st.recommendations ++
        ["🚨 CRITICAL: Device temperature too high! Cool down immediately!"],
      healthScore := st.healthScore - 25,
      alertLevel := AlertLevel.danger }
  else if deviceTemp > 35 then
    { recommendations := st.recommendations ++
        ["⚠️ WARNING: Device running hot. Reduce intensive tasks."],
      healthScore := st.healthScore - 15,
      alertLevel := AlertLevel.warning }
  else
    { st with recommendations := st.recommendations ++
        ["✅ Temperature levels are optimal."] }

/-- Charging part of the battery analysis block (src/app.js lines 235-241). -/
def batteryChargingRule (b : BatterySnapshot) (deviceTemp : ℚ)
    (st : EngineState) : EngineState :=
  if b.charging = true ∧ deviceTemp > 35 then
    { recommendations := st.recommendations ++
        ["⚠️ Charging while hot affects battery longevity."],
      healthScore := st.healthScore - 10,
      alertLevel := if st.alertLevel = AlertLevel.safe then AlertLevel.warning
                    else st.alertLevel }
  else if b.charging = true then
    { st with recommendations := st.recommendations ++
        ["🔋 Charging conditions are good."] }
  else st

/-- Level part of the battery analysis block (src/app.js lines 243-247). -/
def batteryLevelRule (b : BatterySnapshot) (st : EngineState) : EngineState :=
  if b.level < 20 then
    { recommendations := st.recommendations ++
        ["🔋 Battery low. Consider charging soon."],
      healthScore := st.healthScore - 5,
      alertLevel := if st.alertLevel = AlertLevel.safe then AlertLevel.warning
                    else st.alertLevel }
  else st

/-- Battery analysis block of `generateRecommendations`
(src/app.js lines 234-248), guarded by `if (batteryData)`. -/
def batteryRule (batteryData : Option BatterySnapshot) (deviceTemp : ℚ)
    (st : EngineState) : EngineState :=
  match batteryData with
  | none => st
  | some b => batteryLevelRule b (batteryChargingRule b deviceTemp st)

/-- Environmental analysis block of `generateRecommendations`
(src/app.js lines 251-260), guarded by `if (weatherData)`. -/
def weatherRule (weatherData : Option WeatherSnapshot)
    (st : EngineState) : EngineState :=
  match weatherData with
  | none => st
  | some w =>
    if w.temperature > 30 then
      { recommendations := st.recommendations ++
          ["🌡️ High ambient temperature affects device cooling."],
        healthScore := st.healthScore - 8,
        alertLevel := if st.alertLevel = AlertLevel.safe then AlertLevel.warning
                      else st.alertLevel }
    else if w.temperature < 10 then
      { st with
        recommendations := st.recommendations ++
          ["❄️ Cold weather can temporarily reduce battery capacity."],
        healthScore := st.healthScore - 3 }
    else st

/-- Performance analysis block of `generateRecommendations`
(src/app.js lines 263-267), guarded by
`if (performanceData && performanceData.cpuLoad > 80)`. -/
def performanceRule (performanceData : Option PerformanceSnapshot)
    (st : EngineState) : EngineState :=
  match performanceData with
  | none => st
  | some p =>
    if cpuLoadHigh p then
      { recommendations := st.recommendations ++
          ["📊 High CPU load detected. Monitor for heat buildup."],
        healthScore := st.healthScore - 10,
        alertLevel := if st.alertLevel = AlertLevel.safe then AlertLevel.warning
                      else st.alertLevel }
    else st

/-- JS `Math.max` on two rationals, as an executable conditional. -/
def jsMax (a b : ℚ) : ℚ := if a ≤ b then b else a

/-- JS `Math.min` on two rationals, as an executable conditional. -/
def jsMin (a b : ℚ) : ℚ := if a ≤ b then a else b

theorem jsMax_eq_max (a b : ℚ) : jsMax a b = max a b := by
  simp [jsMax, max_def]

theorem jsMin_eq_min (a b : ℚ) : jsMin a b = min a b := by
  simp [jsMin, min_def]

/-- The value returned by `generateRecommendations`, `lastUpdated` aside
(a wall-clock timestamp, outside the pure embedding). -/
structure HealthAssessment where
  healthScore : ℚ
  recommendations : List String
  alertLevel : AlertLevel
deriving DecidableEq

/-- The health advisory engine `generateRecommendations`
(src/app.js lines 215-275): score starts at 100, alertLevel at `safe`,
the four rule blocks run in source order, and the returned score is
`Math.max(0, Math.min(100, healthScore))`. -/
def generateRecommendations (batteryData : Option BatterySnapshot)
    (weatherData : Option WeatherSnapshot) (deviceTemp : ℚ)
    (performanceData : Option PerformanceSnapshot) : HealthAssessment :=
  let st0 : EngineState :=
    { recommendations := [], healthScore := 100, alertLevel := AlertLevel.safe }
  let st1 := temperatureRule deviceTemp st0
  let st2 := batteryRule batteryData deviceTemp st1
  let st3 := weatherRule weatherData st2
  let st4 := performanceRule performanceData st3
  { healthScore := jsMax 0 (jsMin 100 st4.healthScore),
    recommendations := st4.recommendations,
    alertLevel := st4.alertLevel }

/-- The `customResult` object produced by the scenario analyzer
(src/app.js, `handleCustomAnalysis`). -/
structure ScenarioResult where
  riskLevel : String
  recommendation : String
  actionItems : List String
  impact : String
deriving DecidableEq

/-- Pure core of the custom scenario analyzer (src/app.js lines 832-878):
the parsed form fields `deviceTemp`, `ambientTemp`, `batteryLevel`, `usage`
are the parameters, the `customResult` passed to `setCustomResult` is the
value.  `ambientTemp` and `batteryLevel` are parsed by the handler but read
by no rule. -/
def handleCustomAnalysis (deviceTemp : ℚ) (ambientTemp : ℚ)
    (batteryLevel : Int) (usage : String) : ScenarioResult :=
  let base :
      String × String × List String :=
    if deviceTemp > 40 then
      ("high", "🚨 CRITICAL: This temperature level poses immediate risk!",
       ["Stop all intensive tasks immediately",
        "Power down device if possible",
        "Move to cool, ventilated area"])
    else if deviceTemp > 35 then
      ("medium", "⚠️ WARNING: Device is running hot and needs attention.",
       ["Reduce intensive applications",
        "Improve ventilation",
        "Avoid charging while hot"])
    else
      ("low", "✅ Temperature levels are acceptable for normal use.",
       ["Continue normal usage", "Monitor periodically"])
  let riskLevel := base.1
  let recommendation := base.2.1
  let actionItems := base.2.2
  let recommendation :=
    if usage = "gaming" ∧ deviceTemp > 30 then
      recommendation ++ " Heavy usage increases thermal stress."
    else recommendation
  let actionItems :=
    if usage = "gaming" ∧ deviceTemp > 30 then
      actionItems ++ ["Consider reducing graphics settings"]
    else actionItems
  { riskLevel := riskLevel,
    recommendation := recommendation,
    actionItems := actionItems,
    impact :=
      if riskLevel = "high" then "High risk of permanent damage"
      else if riskLevel = "medium" then "Moderate impact on battery health"
      else "Minimal impact on battery health" }

/-- Ways the axios POST in `sendSensorData` can reject: network failure,
timeout, or a non-2xx HTTP status. -/
inductive TransportError
  | networkFailure
  | timeout
  | httpStatus (status : Nat)
deriving DecidableEq

/-- Response shape of the remote advice endpoint
(src/app.updated.js, spec section 6). -/
structure AdviceResponse where
  predicted_health_impact : Option ℚ
  alert_level : String
  natural_language_tip : String
  optional_action : Option String
deriving DecidableEq

/-- The fixed fallback object returned from the catch block of
`sendSensorData` (src/app.updated.js lines 40-45). -/
def fallbackAdvice : AdviceResponse :=
  { predicted_health_impact := none,
    alert_level := "error",
    natural_language_tip := "⚠️ Unable to fetch advice. Please try again later.",
    optional_action := none }

/-- The remote-endpoint client `sendSensorData` (src/app.updated.js lines
3-47).  The axios POST is abstracted as the `transport` argument, applied to
the request fields the source sends (`battery_temp`, `ambient_temp`, and
`device_state.toLowerCase()`); a successful promise is `Except.ok`, a
rejection (network error, timeout, non-2xx) is `Except.error`.  The JS
try/catch is the match: on success the response data is returned, on any
rejection the fixed fallback object is returned — the function itself never
fails.  DOM mutation is a side effect outside the embedding. -/
def sendSensorData (batteryTemp : ℚ) (ambientTemp : ℚ) (deviceState : String)
    (transport : ℚ → ℚ → String → Except TransportError AdviceResponse) :
    AdviceResponse :=
  match transport batteryTemp ambientTemp deviceState.toLower with
  | Except.ok result => result
  | Except.error _ => fallbackAdvice

/-- The battery-charging-while-hot penalty condition fires
(src/app.js line 235). -/
def chargingHotTrig (b : Option BatterySnapshot) (t : ℚ) : Bool :=
  match b with
  | none => false
  | some bb => bb.charging && decide (t > 35)

/-- The low-battery penalty condition fires (src/app.js line 243). -/
def lowBatteryTrig (b : Option BatterySnapshot) : Bool :=
  match b with
  | none => false
  | some bb => decide (bb.level < 20)

/-- The hot-ambient-weather penalty condition fires (src/app.js line 252). -/
def hotWeatherTrig (w : Option WeatherSnapshot) : Bool :=
  match w with
  | none => false
  | some ww => decide (ww.temperature > 30)

/-- The high-CPU penalty condition fires (src/app.js line 263). -/
def highCpuTrig (p : Option PerformanceSnapshot) : Bool :=
  match p with
  | none => false
  | some pp => cpuLoadHigh pp

theorem temperatureRule_alertLevel (t : ℚ) (st : EngineState) :
    (temperatureRule t st).alertLevel =
      if t > 40 then AlertLevel.danger
      else if t > 35 then AlertLevel.warning
      else st.alertLevel := by
  unfold temperatureRule
  split_ifs <;> rfl

theorem batteryRule_alertLevel (b : Option BatterySnapshot) (t : ℚ)
    (st : EngineState) :
    (batteryRule b t st).alertLevel =
      if (chargingHotTrig b t || lowBatteryTrig b) = true ∧
          st.alertLevel = AlertLevel.safe then AlertLevel.warning
      else st.alertLevel := by
  cases b with
  | none => simp [batteryRule, chargingHotTrig, lowBatteryTrig]
  | some bb =>
    by_cases hc : bb.charging = true <;>
      by_cases h35 : t > 35 <;>
      by_cases hl : bb.level < 20 <;>
      by_cases hs : st.alertLevel = AlertLevel.safe <;>
      simp [batteryRule, batteryChargingRule, batteryLevelRule,
        chargingHotTrig, lowBatteryTrig, hc, h35, hl, hs]

theorem weatherRule_alertLevel (w : Option WeatherSnapshot)
    (st : EngineState) :
    (weatherRule w st).alertLevel =
      if hotWeatherTrig w = true ∧ st.alertLevel = AlertLevel.safe then
        AlertLevel.warning
      else st.alertLevel := by
  cases w with
  | none => simp [weatherRule, hotWeatherTrig]
  | some ww =>
    by_cases h30 : ww.temperature > 30 <;>
      by_cases h10 : ww.temperature < 10 <;>
      by_cases hs : st.alertLevel = AlertLevel.safe <;>
      simp [weatherRule, hotWeatherTrig, h30, h10, hs]

theorem performanceRule_alertLevel (p : Option PerformanceSnapshot)
    (st : EngineState) :
    (performanceRule p st).alertLevel =
      if highCpuTrig p = true ∧ st.alertLevel = AlertLevel.safe then
        AlertLevel.warning
      else st.alertLevel := by
  cases p with
  | none => simp [performanceRule, highCpuTrig]
  | some pp =>
    by_cases hcpu : cpuLoadHigh pp = true <;>
      by_cases hs : st.alertLevel = AlertLevel.safe <;>
      simp [performanceRule, highCpuTrig, hcpu, hs]

/-- Closed form of the alert level produced by the engine: `danger` exactly
when the device is over 40, otherwise `warning` exactly when some
warning-tier condition fires, otherwise `safe`. -/
theorem generateRecommendations_alertLevel (b : Option BatterySnapshot)
    (w : Option WeatherSnapshot) (t : ℚ) (p : Option PerformanceSnapshot) :
    (generateRecommendations b w t p).alertLevel =
      if t > 40 then AlertLevel.danger
      else if t > 35 ∨ chargingHotTrig b t = true ∨ lowBatteryTrig b = true ∨
          hotWeatherTrig w = true ∨ highCpuTrig p = true then AlertLevel.warning
      else AlertLevel.safe := by
  simp only [generateRecommendations]
  rw [performanceRule_alertLevel, weatherRule_alertLevel,
    batteryRule_alertLevel, temperatureRule_alertLevel]
  by_cases h40 : t > 40 <;>
    by_cases h35 : t > 35 <;>
    by_cases hch : chargingHotTrig b t = true <;>
    by_cases hlb : lowBatteryTrig b = true <;>
    by_cases hhw : hotWeatherTrig w = true <;>
    by_cases hcpu : highCpuTrig p = true <;>
    simp [h40, h35, hch, hlb, hhw, hcpu]

theorem temperatureRule_healthScore_bounds (t : ℚ) (st : EngineState) :
    st.healthScore - 25 ≤ (temperatureRule t st).healthScore ∧
    (temperatureRule t st).healthScore ≤ st.healthScore := by
  unfold temperatureRule
  split_ifs <;> constructor <;> simp <;> linarith

theorem temperatureRule_healthScore_of_hot (t : ℚ) (st : EngineState)
    (h : t > 40) :
    (temperatureRule t st).healthScore = st.healthScore - 25 := by
  unfold temperatureRule
  rw [if_pos h]

theorem batteryRule_healthScore_bounds (b : Option BatterySnapshot) (t : ℚ)
    (st : EngineState) :
    st.healthScore - 15 ≤ (batteryRule b t st).healthScore ∧
    (batteryRule b t st).healthScore ≤ st.healthScore := by
  cases b with
  | none => simp [batteryRule]
  | some bb =>
    have hc : st.healthScore - 10 ≤ (batteryChargingRule bb t st).healthScore ∧
        (batteryChargingRule bb t st).healthScore ≤ st.healthScore := by
      unfold batteryChargingRule
      split_ifs <;> constructor <;> simp <;> linarith
    have hl : ∀ st' : EngineState,
        st'.healthScore - 5 ≤ (batteryLevelRule bb st').healthScore ∧
        (batteryLevelRule bb st').healthScore ≤ st'.healthScore := by
      intro st'
      unfold batteryLevelRule
      split_ifs <;> constructor <;> simp <;> linarith
    have := hl (batteryChargingRule bb t st)
    constructor
    · simp only [batteryRule]
      linarith [hc.1, this.1]
    · simp only [batteryRule]
      linarith [hc.2, this.2]

theorem weatherRule_healthScore_bounds (w : Option WeatherSnapshot)
    (st : EngineState) :
    st.healthScore - 8 ≤ (weatherRule w st).healthScore ∧
    (weatherRule w st).healthScore ≤ st.healthScore := by
  cases w with
  | none => simp [weatherRule]
  | some ww =>
    by_cases h30 : ww.temperature > 30 <;>
      by_cases h10 : ww.temperature < 10 <;>
      constructor <;>
      simp [weatherRule, h30, h10] <;> linarith

theorem performanceRule_healthScore_bounds (p : Option PerformanceSnapshot)
    (st : EngineState) :
    st.healthScore - 10 ≤ (performanceRule p st).healthScore ∧
    (performanceRule p st).healthScore ≤ st.healthScore := by
  cases p with
  | none => simp [performanceRule]
  | some pp =>
    by_cases hcpu : cpuLoadHigh pp = true <;>
      constructor <;>
      simp [performanceRule, hcpu] <;> linarith

theorem temperatureRule_recommendations_ne_nil (t : ℚ) (st : EngineState) :
    (temperatureRule t st).recommendations ≠ [] := by
  unfold temperatureRule
  split_ifs <;> simp

theorem batteryRule_recommendations_ne_nil (b : Option BatterySnapshot)
    (t : ℚ) (st : EngineState) (h : st.recommendations ≠ []) :
    (batteryRule b t st).recommendations ≠ [] := by
  cases b with
  | none => simpa [batteryRule] using h
  | some bb =>
    simp only [batteryRule]
    unfold batteryLevelRule batteryChargingRule
    split_ifs <;> simp_all

theorem weatherRule_recommendations_ne_nil (w : Option WeatherSnapshot)
    (st : EngineState) (h : st.recommendations ≠ []) :
    (weatherRule w st).recommendations ≠ [] := by
  cases w with
  | none => simpa [weatherRule] using h
  | some ww =>
    simp only [weatherRule]
    split_ifs <;> simp_all

theorem performanceRule_recommendations_ne_nil
    (p : Option PerformanceSnapshot) (st : EngineState)
    (h : st.recommendations ≠ []) :
    (performanceRule p st).recommendations ≠ [] := by
  cases p with
  | none => simpa [performanceRule] using h
  | some pp =>
    simp only [performanceRule]
    split_ifs <;> simp_all

/-- Claim C1: on the spec's worked example — battery level 15 and charging,
ambient 32, device temperature 42, cpu load 85 — the engine returns alert
level `danger`, health score 42, and exactly the five penalty messages in
the fixed rule order. -/
theorem claim1_example_assessment :
    generateRecommendations (some { level := 15, charging := true })
      (some { temperature := 32 }) 42 (some { cpuLoad := some 85 }) =
    { healthScore := 42,
      recommendations :=
        ["🚨 CRITICAL: Device temperature too high! Cool down immediately!",
         "⚠️ Charging while hot affects battery longevity.",
         "🔋 Battery low. Consider charging soon.",
         "🌡️ High ambient temperature affects device cooling.",
         "📊 High CPU load detected. Monitor for heat buildup."],
      alertLevel := AlertLevel.danger } := by
  norm_num [generateRecommendations, temperatureRule, batteryRule,
    batteryChargingRule, batteryLevelRule, weatherRule, performanceRule,
    cpuLoadHigh, jsMax, jsMin, HealthAssessment.mk.injEq]
  decide

/-- Claim C2: for every combination of present or absent snapshots and any
device temperature, the returned health score lies between 0 and 100. -/
theorem claim2_healthScore_clamped (b : Option BatterySnapshot)
    (w : Option WeatherSnapshot) (t : ℚ) (p : Option PerformanceSnapshot) :
    0 ≤ (generateRecommendations b w t p).healthScore ∧
    (generateRecommendations b w t p).healthScore ≤ 100 := by
  simp only [generateRecommendations, jsMax_eq_max, jsMin_eq_min]
  exact ⟨le_max_left 0 _, max_le (by norm_num) (min_le_left _ _)⟩

/-- Claim C3: whenever the device temperature exceeds 40, the engine
returns alert level `danger` and a health score of at most 75, whatever
the other snapshots are. -/
theorem claim3_critical_temperature (b : Option BatterySnapshot)
    (w : Option WeatherSnapshot) (t : ℚ) (p : Option PerformanceSnapshot)
    (ht : t > 40) :
    (generateRecommendations b w t p).alertLevel = AlertLevel.danger ∧
    (generateRecommendations b w t p).healthScore ≤ 75 := by
  constructor
  · rw [generateRecommendations_alertLevel, if_pos ht]
  · have h1 : (temperatureRule t ⟨[], 100, AlertLevel.safe⟩).healthScore = 75 := by
      rw [temperatureRule_healthScore_of_hot t ⟨[], 100, AlertLevel.safe⟩ ht]
      norm_num
    have h2 := (batteryRule_healthScore_bounds b t
      (temperatureRule t ⟨[], 100, AlertLevel.safe⟩)).2
    have h3 := (weatherRule_healthScore_bounds w
      (batteryRule b t (temperatureRule t ⟨[], 100, AlertLevel.safe⟩))).2
    have h4 := (performanceRule_healthScore_bounds p
      (weatherRule w (batteryRule b t
        (temperatureRule t ⟨[], 100, AlertLevel.safe⟩)))).2
    have hs : (performanceRule p (weatherRule w (batteryRule b t
        (temperatureRule t ⟨[], 100, AlertLevel.safe⟩)))).healthScore ≤ 75 := by
      linarith
    simp only [generateRecommendations, jsMax_eq_max, jsMin_eq_min]
    exact max_le (by norm_num) (le_trans (min_le_right _ _) hs)

/-- Witness for claim C3 at device temperature 42 with all other snapshots
absent. -/
theorem claim3_witness :
    (generateRecommendations none none 42 none).alertLevel =
      AlertLevel.danger ∧
    (generateRecommendations none none 42 none).healthScore ≤ 75 :=
  claim3_critical_temperature none none 42 none (by norm_num)

/-- Claim C4 counterexample: at device temperature 25 with a present,
charging battery at level 50 — which triggers no penalty rule, satisfies
battery level 20 or more, and is not charging while hot — the engine still
appends the informational "Charging conditions are good." message, so the
assessment has two recommendations, not exactly one. -/
theorem claim4_counterexample :
    (25 : ℚ) ≤ 35 ∧ (20 : ℚ) ≤ 50 ∧
    generateRecommendations (some { level := 50, charging := true })
        none 25 none =
      { healthScore := 100,
        recommendations := ["✅ Temperature levels are optimal.",
          "🔋 Charging conditions are good."],
        alertLevel := AlertLevel.safe } :=
  ⟨by norm_num, by norm_num, rfl⟩

/-- Claim C4, amended: if additionally the battery (when present) is not
charging, then a device temperature of at most 35 with no penalty-triggering
condition yields alert level `safe`, score 100, and exactly the single
"optimal" recommendation.  (The amendment is forced: a present battery that
is charging while cool adds an informational "good" message.) -/
theorem claim4_amended_safe_baseline (b : Option BatterySnapshot)
    (w : Option WeatherSnapshot) (t : ℚ) (p : Option PerformanceSnapshot)
    (ht : t ≤ 35)
    (hb : ∀ bb, b = some bb → bb.charging = false ∧ 20 ≤ bb.level)
    (hw : ∀ ww, w = some ww → 10 ≤ ww.temperature ∧ ww.temperature ≤ 30)
    (hp : ∀ pp, p = some pp → cpuLoadHigh pp = false) :
    generateRecommendations b w t p =
      { healthScore := 100,
        recommendations := ["✅ Temperature levels are optimal."],
        alertLevel := AlertLevel.safe } := by
  have h40 : ¬ t > 40 := by linarith
  have h35 : ¬ t > 35 := not_lt.mpr ht
  have hT : temperatureRule t ⟨[], 100, AlertLevel.safe⟩ =
      ⟨["✅ Temperature levels are optimal."], 100, AlertLevel.safe⟩ := by
    unfold temperatureRule
    rw [if_neg h40, if_neg h35]
    rfl
  have hB : ∀ st : EngineState, batteryRule b t st = st := by
    intro st
    cases b with
    | none => rfl
    | some bb =>
      obtain ⟨hc, hl⟩ := hb bb rfl
      have hl20 : ¬ bb.level < 20 := not_lt.mpr hl
      simp [batteryRule, batteryChargingRule, batteryLevelRule, hc, hl20]
  have hW : ∀ st : EngineState, weatherRule w st = st := by
    intro st
    cases w with
    | none => rfl
    | some ww =>
      obtain ⟨h10, h30⟩ := hw ww rfl
      have hgt : ¬ ww.temperature > 30 := not_lt.mpr h30
      have hlt : ¬ ww.temperature < 10 := not_lt.mpr h10
      simp [weatherRule, hgt, hlt]
  have hP : ∀ st : EngineState, performanceRule p st = st := by
    intro st
    cases p with
    | none => rfl
    | some pp =>
      have hc := hp pp rfl
      simp [performanceRule, hc]
  simp only [generateRecommendations]
  rw [hT, hB, hW, hP]
  norm_num [jsMax, jsMin]

/-- Witness for the amended claim C4 at a concrete all-nominal input. -/
theorem claim4_witness :
    generateRecommendations (some { level := 50, charging := false })
      (some { temperature := 20 }) 25 (some { cpuLoad := some 40 }) =
      { healthScore := 100,
        recommendations := ["✅ Temperature levels are optimal."],
        alertLevel := AlertLevel.safe } :=
  claim4_amended_safe_baseline _ _ _ _ (by norm_num)
    (fun bb hbb => by cases hbb; exact ⟨rfl, by norm_num⟩)
    (fun ww hww => by cases hww; constructor <;> norm_num)
    (fun pp hpp => by cases hpp; rfl)

/-- Claim C5: the alert level only escalates.  Each rule after the
temperature rule never lowers the severity of the incoming alert level;
`danger` is only ever produced when the temperature rule's over-40
condition holds; and making more penalty conditions fire (for a fixed
device temperature) never yields a strictly less severe alert level, with
severity ordered safe, then warning, then danger. -/
theorem claim5_alert_escalation :
    (∀ (b : Option BatterySnapshot) (t : ℚ) (st : EngineState),
      severity st.alertLevel ≤ severity (batteryRule b t st).alertLevel) ∧
    (∀ (w : Option WeatherSnapshot) (st : EngineState),
      severity st.alertLevel ≤ severity (weatherRule w st).alertLevel) ∧
    (∀ (p : Option PerformanceSnapshot) (st : EngineState),
      severity st.alertLevel ≤ severity (performanceRule p st).alertLevel) ∧
    (∀ (b : Option BatterySnapshot) (w : Option WeatherSnapshot) (t : ℚ)
        (p : Option PerformanceSnapshot),
      (generateRecommendations b w t p).alertLevel = AlertLevel.danger →
      40 < t) ∧
    (∀ (t : ℚ) (b : Option BatterySnapshot) (w : Option WeatherSnapshot)
        (p : Option PerformanceSnapshot) (b' : Option BatterySnapshot)
        (w' : Option WeatherSnapshot) (p' : Option PerformanceSnapshot),
      (chargingHotTrig b t = true → chargingHotTrig b' t = true) →
      (lowBatteryTrig b = true → lowBatteryTrig b' = true) →
      (hotWeatherTrig w = true → hotWeatherTrig w' = true) →
      (highCpuTrig p = true → highCpuTrig p' = true) →
      severity (generateRecommendations b w t p).alertLevel ≤
        severity (generateRecommendations b' w' t p').alertLevel) := by
  refine ⟨?_, ?_, ?_, ?_, ?_⟩
  · intro b t st
    rw [batteryRule_alertLevel]
    split_ifs with h
    · rw [h.2]
      simp [severity]
    · exact le_refl _
  · intro w st
    rw [weatherRule_alertLevel]
    split_ifs with h
    · rw [h.2]
      simp [severity]
    · exact le_refl _
  · intro p st
    rw [performanceRule_alertLevel]
    split_ifs with h
    · rw [h.2]
      simp [severity]
    · exact le_refl _
  · intro b w t p hd
    rw [generateRecommendations_alertLevel] at hd
    by_cases h40 : t > 40
    · exact h40
    · rw [if_neg h40] at hd
      split_ifs at hd <;> simp_all
  · intro t b w p b' w' p' hch hlb hhw hcpu
    rw [generateRecommendations_alertLevel,
      generateRecommendations_alertLevel]
    by_cases h40 : t > 40
    · rw [if_pos h40, if_pos h40]
    · rw [if_neg h40, if_neg h40]
      by_cases hw1 : t > 35 ∨ chargingHotTrig b t = true ∨
          lowBatteryTrig b = true ∨ hotWeatherTrig w = true ∨
          highCpuTrig p = true
      · have hw2 : t > 35 ∨ chargingHotTrig b' t = true ∨
            lowBatteryTrig b' = true ∨ hotWeatherTrig w' = true ∨
            highCpuTrig p' = true := by
          rcases hw1 with h | h | h | h | h
          · exact Or.inl h
          · exact Or.inr (Or.inl (hch h))
          · exact Or.inr (Or.inr (Or.inl (hlb h)))
          · exact Or.inr (Or.inr (Or.inr (Or.inl (hhw h))))
          · exact Or.inr (Or.inr (Or.inr (Or.inr (hcpu h))))
        rw [if_pos hw1, if_pos hw2]
      · rw [if_neg hw1]
        split_ifs <;> simp [severity]

/-- Witness for claim C5: at temperature 42 the danger reflection gives
40 < 42, and adding a charging low battery to an empty input at
temperature 36 does not decrease the severity. -/
theorem claim5_witness :
    (40 : ℚ) < 42 ∧
    severity (generateRecommendations none none 36 none).alertLevel ≤
      severity (generateRecommendations
        (some { level := 10, charging := true }) none 36 none).alertLevel :=
  ⟨claim5_alert_escalation.2.2.2.1 none none 42 none rfl,
   claim5_alert_escalation.2.2.2.2 36 none none none
     (some { level := 10, charging := true }) none none
     (by decide) (by decide) (by decide) (by decide)⟩

/-- Claim C6: the engine is total over its declared input domain.  An
absent battery, weather, or performance snapshot leaves the state
untouched (that rule group is skipped), as does a present performance
object with no `cpuLoad` field, and for every input combination the engine
returns a complete assessment with a nonempty recommendation list. -/
theorem claim6_totality_skip_absent :
    (∀ (t : ℚ) (st : EngineState), batteryRule none t st = st) ∧
    (∀ st : EngineState, weatherRule none st = st) ∧
    (∀ st : EngineState, performanceRule none st = st) ∧
    (∀ st : EngineState, performanceRule (some { cpuLoad := none }) st = st) ∧
    (∀ (b : Option BatterySnapshot) (w : Option WeatherSnapshot) (t : ℚ)
        (p : Option PerformanceSnapshot),
      (generateRecommendations b w t p).recommendations ≠ []) := by
  refine ⟨fun t st => rfl, fun st => rfl, fun st => rfl, fun st => rfl, ?_⟩
  intro b w t p
  simp only [generateRecommendations]
  exact performanceRule_recommendations_ne_nil _ _
    (weatherRule_recommendations_ne_nil _ _
      (batteryRule_recommendations_ne_nil _ _ _
        (temperatureRule_recommendations_ne_nil _ _)))

/-- Claim C7: whenever the transport rejects — network failure, timeout, or
a non-2xx status — `sendSensorData` still returns a value, namely exactly
the fixed fallback object with alert level `error`, null health impact,
null action, and the fixed tip string. -/
theorem claim7_transport_failure_fallback (batteryTemp ambientTemp : ℚ)
    (deviceState : String)
    (transport : ℚ → ℚ → String → Except TransportError AdviceResponse)
    (e : TransportError)
    (hfail : transport batteryTemp ambientTemp deviceState.toLower =
      Except.error e) :
    sendSensorData batteryTemp ambientTemp deviceState transport =
      { predicted_health_impact := none,
        alert_level := "error",
        natural_language_tip :=
          "⚠️ Unable to fetch advice. Please try again later.",
        optional_action := none } := by
  unfold sendSensorData
  rw [hfail]
  rfl

/-- Witness for claim C7 on a transport that times out. -/
theorem claim7_witness :
    sendSensorData 45 30 "Charging"
      (fun _ _ _ => Except.error TransportError.timeout) =
      { predicted_health_impact := none,
        alert_level := "error",
        natural_language_tip :=
          "⚠️ Unable to fetch advice. Please try again later.",
        optional_action := none } :=
  claim7_transport_failure_fallback 45 30 "Charging" _
    TransportError.timeout rfl

/-- Claim C8: the scenario analyzer grades risk by the three-tier device
temperature thresholds (over 40 high, else over 35 medium, else low), and
for the "gaming" tag with device temperature over 30 it appends one extra
sentence to the recommendation and one extra action item, leaving the risk
level exactly what the thresholds give. -/
theorem claim8_scenario_thresholds_gaming (t a : ℚ) (bl : Int) (u : String) :
    ((handleCustomAnalysis t a bl u).riskLevel =
      if t > 40 then "high" else if t > 35 then "medium" else "low") ∧
    (t > 30 →
      (handleCustomAnalysis t a bl "gaming").recommendation =
        (handleCustomAnalysis t a bl "idle").recommendation ++
          " Heavy usage increases thermal stress." ∧
      (handleCustomAnalysis t a bl "gaming").actionItems =
        (handleCustomAnalysis t a bl "idle").actionItems ++
          ["Consider reducing graphics settings"] ∧
      (handleCustomAnalysis t a bl "gaming").riskLevel =
        (handleCustomAnalysis t a bl "idle").riskLevel) := by
  constructor
  · by_cases h40 : t > 40 <;> by_cases h35 : t > 35 <;>
      simp [handleCustomAnalysis, h40, h35]
  · intro h30
    by_cases h40 : t > 40 <;> by_cases h35 : t > 35 <;>
      refine ⟨?_, ?_, ?_⟩ <;>
      simp [handleCustomAnalysis, h40, h35, h30]

/-- Witness for claim C8 at device temperature 38 in the gaming scenario. -/
theorem claim8_witness :
    (handleCustomAnalysis 38 25 60 "gaming").recommendation =
      (handleCustomAnalysis 38 25 60 "idle").recommendation ++
        " Heavy usage increases thermal stress." ∧
    (handleCustomAnalysis 38 25 60 "gaming").actionItems =
      (handleCustomAnalysis 38 25 60 "idle").actionItems ++
        ["Consider reducing graphics settings"] ∧
    (handleCustomAnalysis 38 25 60 "gaming").riskLevel =
      (handleCustomAnalysis 38 25 60 "idle").riskLevel :=
  (claim8_scenario_thresholds_gaming 38 25 60 "idle").2 (by norm_num)

/-- Claim C9: the scenario analyzer's whole output depends only on the
device temperature and the usage tag — the parsed ambient temperature and
battery level are never read, so varying them arbitrarily leaves the
result identical. -/
theorem claim9_scenario_noninterference (t a₁ a₂ : ℚ) (bl₁ bl₂ : Int)
    (u : String) :
    handleCustomAnalysis t a₁ bl₁ u = handleCustomAnalysis t a₂ bl₂ u := rfl

/-- Claim C10: the health score is always at least 42 — the worst case
stacks the 25-point critical-temperature, 10-point charging-while-hot,
5-point low-battery, 8-point hot-weather and 10-point high-CPU penalties,
so the lower clamp at 0 is never reached. -/
theorem claim10_healthScore_lower_bound (b : Option BatterySnapshot)
    (w : Option WeatherSnapshot) (t : ℚ) (p : Option PerformanceSnapshot) :
    42 ≤ (generateRecommendations b w t p).healthScore := by
  have h0 : ((⟨[], 100, AlertLevel.safe⟩ : EngineState)).healthScore = 100 :=
    rfl
  have h1 := (temperatureRule_healthScore_bounds t
    ⟨[], 100, AlertLevel.safe⟩).1
  have h2 := (batteryRule_healthScore_bounds b t
    (temperatureRule t ⟨[], 100, AlertLevel.safe⟩)).1
  have h3 := (weatherRule_healthScore_bounds w
    (batteryRule b t (temperatureRule t ⟨[], 100, AlertLevel.safe⟩))).1
  have h4 := (performanceRule_healthScore_bounds p
    (weatherRule w (batteryRule b t
      (temperatureRule t ⟨[], 100, AlertLevel.safe⟩)))).1
  have hs : 42 ≤ (performanceRule p (weatherRule w (batteryRule b t
      (temperatureRule t ⟨[], 100, AlertLevel.safe⟩)))).healthScore := by
    rw [h0] at h1
    linarith
  simp only [generateRecommendations, jsMax_eq_max, jsMin_eq_min]
  exact le_trans (le_min (by norm_num) hs) (le_max_right _ _)
